import Mathlib

/-!
# Verification of the MidTerm marketing-asset generation scripts

Shallow embedding of the workflow-orchestration scripts
(`docs/marketing/test_multiclip_workflow.py`, `Marketing/generate_video.py`,
`Marketing/test_advanced_workflow.py`) and proofs of the testable properties
stated in the design spec.

The external generative-media service, the filesystem and the concatenation
tool are modelled explicitly: the service as response values supplied per
call, the filesystem as an association list from paths to file contents,
and the tool as its exit code / stderr / output bytes.  The orchestration
code itself (content assembly, poll loop, result handling, the phase loops
of `main`) is translated statement by statement from the Python source.
-/

namespace MidTerm

/-- Contents of one file: raw bytes (generated media) or text (the ffmpeg
concat manifest). -/
inductive FileData where
  | bytes (bs : List Nat)
  | text (s : String)
  deriving DecidableEq, Repr

/-- The local filesystem, as an association list from path to contents.
`write` prepends, `read` returns the most recent write, `unlink` removes
every entry for the path. -/
structure FS where
  files : List (String × FileData)
  deriving DecidableEq, Repr

def FS.read (fs : FS) (p : String) : Option FileData :=
  (fs.files.find? (fun e => e.1 == p)).map (·.2)

def FS.write (fs : FS) (p : String) (d : FileData) : FS :=
  ⟨(p, d) :: fs.files⟩

def FS.pathExists (fs : FS) (p : String) : Bool :=
  (fs.read p).isSome

def FS.unlink (fs : FS) (p : String) : FS :=
  ⟨fs.files.filter (fun e => !(e.1 == p))⟩

/-- `@dataclass KeyFrame` of `test_multiclip_workflow.py`: name, prompt and
the path the generated image was saved to (`None` until generated). -/
structure KeyFrame where
  name : String
  prompt : String
  path : Option String := none
  deriving DecidableEq, Repr

/-- `@dataclass ClipDefinition` of `test_multiclip_workflow.py`. -/
structure ClipDefinition where
  name : String
  prompt : String
  duration : Nat := 4
  deriving DecidableEq, Repr

/-- One element of the `contents` list sent to the image model:
a loaded reference asset, the previous keyframe image, or the text prompt. -/
inductive ContentPart where
  | asset (name : String) (data : FileData)
  | image (data : FileData)
  | text (s : String)
  deriving DecidableEq, Repr

/-- `part.inline_data` of a generate-content response part. -/
structure InlineData where
  mime_type : String
  data : List Nat
  deriving DecidableEq, Repr

/-- One part of `response.candidates[0].content.parts`. -/
structure RespPart where
  inline_data : Option InlineData
  deriving DecidableEq, Repr

/-- The image-model response, reduced to the part list the script reads. -/
structure GCResponse where
  parts : List RespPart
  deriving DecidableEq, Repr

/-- `mime_type.startswith("image/")`, on the character list (structurally
recursive, so that concrete runs evaluate). -/
def startsWithImage (mime_type : String) : Bool :=
  mime_type.data.take 6 == "image/".data

/-- The `for part in response...parts` loop of `generate_keyframe`: the first
part carrying inline data with an `image/` mime type. -/
def findImagePart : List RespPart → Option InlineData
  | [] => none
  | p :: rest =>
    match p.inline_data with
    | some d => if startsWithImage d.mime_type then some d else findImagePart rest
    | none => findImagePart rest

/-- Result of a successful `generate_keyframe` call: the updated keyframe,
the returned output path, the filesystem after the save, and a trace record
of the request that was sent. -/
structure KfCallRecord where
  /-- the `reference_image` argument the call received -/
  ref : Option String
  /-- the `contents` actually passed to `client.models.generate_content` -/
  sent : List ContentPart
  /-- where the image was saved -/
  saved_path : String
  /-- the image bytes that were saved -/
  saved_data : List Nat
  deriving DecidableEq, Repr

/-- `generate_keyframe` of `test_multiclip_workflow.py`.  `client` maps the
request contents to the mock service's response; `assets` is the loaded
`Assets._loaded` part list; the filesystem is explicit.  `sys.exit(1)` on a
response with no image part becomes `Except.error`. -/
def kf_contents_pre (reference_image : Option String)
    (assets : List (String × FileData)) (fs : FS) : List ContentPart :=
  -- contents = []; if assets and assets.get_parts(): contents.extend(...)
  let contents0 : List ContentPart :=
    if assets.isEmpty then [] else assets.map (fun a => ContentPart.asset a.1 a.2)
  -- if reference_image and reference_image.exists(): contents.append(Part.from_bytes(...))
  match reference_image with
  | some p =>
    match fs.read p with
    | some d => contents0 ++ [ContentPart.image d]
    | none => contents0
  | none => contents0

/-- The full `contents` list: assets, optional previous keyframe, then
`contents.append(keyframe.prompt)`. -/
def kf_contents (keyframe : KeyFrame) (reference_image : Option String)
    (assets : List (String × FileData)) (fs : FS) : List ContentPart :=
  kf_contents_pre reference_image assets fs ++ [ContentPart.text keyframe.prompt]

/-- `contents if len(contents) > 1 else keyframe.prompt` of `generate_keyframe`. -/
def kf_sent (keyframe : KeyFrame) (reference_image : Option String)
    (assets : List (String × FileData)) (fs : FS) : List ContentPart :=
  let contents := kf_contents keyframe reference_image assets fs
  if contents.length > 1 then contents else [ContentPart.text keyframe.prompt]

def generate_keyframe (client : List ContentPart → GCResponse)
    (keyframe : KeyFrame) (reference_image : Option String)
    (output_dir : String) (assets : List (String × FileData)) (fs : FS) :
    Except String (KeyFrame × String × FS × KfCallRecord) :=
  -- response = client.models.generate_content(...); the first response part
  -- with image inline data is saved to output_dir / f"{keyframe.name}.png"
  match findImagePart (client (kf_sent keyframe reference_image assets fs)).parts with
  | some d =>
    .ok ({ keyframe with path := some (output_dir ++ "/" ++ keyframe.name ++ ".png") },
         output_dir ++ "/" ++ keyframe.name ++ ".png",
         fs.write (output_dir ++ "/" ++ keyframe.name ++ ".png") (.bytes d.data),
         ⟨reference_image, kf_sent keyframe reference_image assets fs,
          output_dir ++ "/" ++ keyframe.name ++ ".png", d.data⟩)
  | none => .error "ERROR: No image in response"

/-- The PHASE 1 loop of `main`:
`reference = None; for kf in keyframes: generate_keyframe(...); reference = kf.path`.
Returns the updated keyframes, the final filesystem and the trace of calls. -/
def run_keyframes (client : List ContentPart → GCResponse)
    (assets : List (String × FileData)) (output_dir : String) :
    List KeyFrame → Option String → FS →
    Except String (List KeyFrame × FS × List KfCallRecord)
  | [], _, fs => .ok ([], fs, [])
  | kf :: rest, reference, fs =>
    match generate_keyframe client kf reference output_dir assets fs with
    | .error e => .error e
    | .ok (kf', path, fs', rec) =>
      match run_keyframes client assets output_dir rest (some path) fs' with
      | .error e => .error e
      | .ok (kfs', fs'', recs) => .ok (kf' :: kfs', fs'', rec :: recs)

/-- The prior-keyframe continuity images among request contents, in order. -/
def imagePartsOf (cs : List ContentPart) : List FileData :=
  cs.filterMap (fun c => match c with | .image d => some d | _ => none)

/-- A mock `video` object of a completed generate-videos operation
(`operation.result.generated_videos[i].video`). -/
structure VideoObj where
  video_bytes : Option (List Nat)
  uri : Option String
  deriving DecidableEq, Repr

/-- Python truthiness of `video.video_bytes` (None and b"" are falsy). -/
def VideoObj.bytesTruthy (v : VideoObj) : Bool :=
  match v.video_bytes with
  | some b => !b.isEmpty
  | none => false

/-- Python truthiness of `video.uri` (None and "" are falsy). -/
def VideoObj.uriTruthy (v : VideoObj) : Bool :=
  match v.uri with
  | some u => !u.isEmpty
  | none => false

/-- A mock long-running operation.  `statusAt i` is the `done` status the
orchestrator observes at its i-th look (observation 0 is the operation
object returned by `generate_videos`; observation i, i ≥ 1, the result of
the i-th `client.operations.get`).  The remaining fields are what the
completed operation carries. -/
structure Operation where
  statusAt : Nat → Bool
  response : Bool
  generated_videos : List VideoObj
  error : Option String

/-- The `while not operation.done: ... operation = client.operations.get(...)`
loop shared by `generate_video.py` and `generate_clip`.  Counts status
observations: returns `some q` where q is the total number of statuses
observed up to and including the first "done" one, starting at observation
index `i`.  `fuel` bounds how many observations we are willing to model;
the scripts themselves have no bound, so `none` models divergence. -/
def poll_loop (statusAt : Nat → Bool) : Nat → Nat → Option Nat
  | 0, _ => none
  | fuel + 1, i => if statusAt i then some (i + 1) else poll_loop statusAt fuel (i + 1)

/-- Trace record of one `client.models.generate_videos` submission made by
`generate_clip`: the prompt, duration, the two frame paths the call was
issued with, and the image data loaded from them. -/
structure ClipCallRecord where
  prompt : String
  duration : Nat
  first_path : String
  last_path : String
  first_data : FileData
  last_data : FileData
  deriving DecidableEq, Repr

/-- `generate_clip` of `test_multiclip_workflow.py`.  The mock operation `op`
carries the status sequence the poll loop observes and the completed
operation's payload.  Returns the optional saved clip path (the function
returns `None` both on an explicit failure and on a GCS-URI delivery), the
filesystem, the trace record of the submission, and the number of status
observations.  `Image.from_file` on a missing frame file raises, hence
`Except.error`; `fuel` bounds the unbounded poll loop of the script. -/
def generate_clip (clip : ClipDefinition) (op : Operation) (fuel : Nat)
    (first_frame last_frame : String) (output_dir : String) (fs : FS) :
    Except String (Option String × FS × ClipCallRecord × Nat) :=
  match fs.read first_frame, fs.read last_frame with
  | some fd, some ld =>
    -- operation = client.models.generate_videos(...);
    -- while not operation.done: time.sleep(15); operation = client.operations.get(...)
    match poll_loop op.statusAt fuel 0 with
    | none => .error "poll loop observation budget exhausted"
    | some q =>
      -- if operation.response and operation.result.generated_videos:
      if op.response && !op.generated_videos.isEmpty then
        if (op.generated_videos.headD ⟨none, none⟩).bytesTruthy then
          .ok (some (output_dir ++ "/" ++ clip.name ++ ".mp4"),
               fs.write (output_dir ++ "/" ++ clip.name ++ ".mp4")
                 (.bytes ((op.generated_videos.headD ⟨none, none⟩).video_bytes.getD [])),
               ⟨clip.prompt, clip.duration, first_frame, last_frame, fd, ld⟩, q)
        else if (op.generated_videos.headD ⟨none, none⟩).uriTruthy then
          -- print(f"Video at GCS: {video.uri}"); return None
          .ok (none, fs, ⟨clip.prompt, clip.duration, first_frame, last_frame, fd, ld⟩, q)
        else
          -- print("ERROR: No video generated"); return None
          .ok (none, fs, ⟨clip.prompt, clip.duration, first_frame, last_frame, fd, ld⟩, q)
      else
        -- print("ERROR: No video generated"); return None
        .ok (none, fs, ⟨clip.prompt, clip.duration, first_frame, last_frame, fd, ld⟩, q)
  | _, _ => .error "FileNotFoundError: frame image"

/-- The PHASE 2 loop of `main`:
`for i, clip in enumerate(clips): first = keyframes[i].path;
last = keyframes[i+1].path; p = generate_clip(...); if p: clip_paths.append(p)`.
`i` is the running loop index. -/
def run_clips (keyframes : List KeyFrame) (ops : Nat → Operation) (fuel : Nat)
    (output_dir : String) :
    List ClipDefinition → Nat → FS →
    Except String (List String × FS × List ClipCallRecord)
  | [], _, fs => .ok ([], fs, [])
  | clip :: rest, i, fs =>
    match keyframes.get? i, keyframes.get? (i + 1) with
    | some kfi, some kfj =>
      match kfi.path, kfj.path with
      | some first_frame, some last_frame =>
        match generate_clip clip (ops i) fuel first_frame last_frame output_dir fs with
        | .error e => .error e
        | .ok (clip_path, fs', call, _q) =>
          match run_clips keyframes ops fuel output_dir rest (i + 1) fs' with
          | .error e => .error e
          | .ok (paths, fs'', calls) =>
            .ok ((match clip_path with | some p => p :: paths | none => paths),
                 fs'', call :: calls)
      | _, _ => .error "TypeError: keyframe path is None"
    | _, _ => .error "IndexError: keyframes"

/-- Exit code, stderr text and produced output bytes of one run of the
external `ffmpeg` concatenation subprocess. -/
structure ToolResult where
  returncode : Int
  stderr : String
  output_data : List Nat
  deriving DecidableEq, Repr

/-- Split a character list on `/` (structurally recursive). -/
def splitSlash : List Char → List (List Char)
  | [] => [[]]
  | c :: rest =>
    match splitSlash rest with
    | [] => [[]]
    | g :: gs => if c = '/' then [] :: g :: gs else (c :: g) :: gs

/-- `Path.parent` as used for `output_path.parent / "clips.txt"`:
everything before the final path component. -/
def dirname (p : String) : String :=
  ⟨List.intercalate ['/'] ((splitSlash p.data).dropLast)⟩

/-- The ffmpeg concat manifest written by `concatenate_clips`:
one `file '<path>'` line per clip, in order. -/
def manifest_text (clips : List String) : String :=
  String.join (clips.map (fun c => "file \x27" ++ c ++ "\x27\n"))

/-- `concatenate_clips` of `test_multiclip_workflow.py`.  Writes the manifest,
runs the tool (modelled by its `ToolResult`; on exit 0 it has written the
output file), and on exit 0 unlinks the manifest, otherwise prints the
tool's stderr and returns `None`.  Result: optional final path, filesystem,
printed messages. -/
def concatenate_clips (clips : List String) (output_path : String)
    (tool : ToolResult) (fs : FS) : Option String × FS × List String :=
  let list_file := dirname output_path ++ "/clips.txt"
  let fs1 := fs.write list_file (.text (manifest_text clips))
  -- result = subprocess.run(cmd, capture_output=True, text=True)
  if tool.returncode = 0 then
    (some output_path,
     ((fs1.write output_path (.bytes tool.output_data)).unlink list_file),
     ["Saved: " ++ output_path])
  else
    (none, fs1, ["ffmpeg error: " ++ tool.stderr])

/-- The skip-concatenation warning printed by `main` (`PartialWorkflowResult`
in the spec's taxonomy). -/
def mc_warning (got total : Nat) : String :=
  "WARNING: Only " ++ toString got ++ "/" ++ toString total ++
    " clips generated, skipping concatenation"

/-- Result of the PHASE 3 step of `main`. -/
structure Phase3Out where
  final_video : Option String
  fs : FS
  log : List String
  invoked : Bool
  deriving DecidableEq, Repr

/-- PHASE 3 of `main`: `if len(clip_paths) == len(clips): concatenate_clips(...)
else: print(WARNING...); final_video = None`. -/
def phase3_concat (clip_paths : List String) (clips : List ClipDefinition)
    (output_dir : String) (tool : ToolResult) (fs : FS) : Phase3Out :=
  if clip_paths.length = clips.length then
    let r := concatenate_clips clip_paths (output_dir ++ "/final_midterm_discovery.mp4") tool fs
    ⟨r.1, r.2.1, r.2.2, true⟩
  else
    ⟨none, fs, [mc_warning clip_paths.length clips.length], false⟩

/-- `Path(p).name`: the final path component, used as the asset dict key. -/
def basename (p : String) : String :=
  ⟨(splitSlash p.data).getLastD p.data⟩

/-- Python dict insertion (`self._loaded[f.name] = part`): replaces the value
of an existing key in place, otherwise appends. -/
def dictInsert (k : String) (v : FileData) :
    List (String × FileData) → List (String × FileData)
  | [] => [(k, v)]
  | (k', v') :: rest => if k' = k then (k, v) :: rest else (k', v') :: dictInsert k v rest

/-- `Assets.load`: loads each existing asset file into the dict keyed by its
basename; missing files only print a warning. -/
def assets_load (fs : FS) : List String → List (String × FileData) →
    List (String × FileData)
  | [], loaded => loaded
  | f :: rest, loaded =>
    match fs.read f with
    | some d => assets_load fs rest (dictInsert (basename f) d loaded)
    | none => assets_load fs rest loaded

def mc_base_scene : String :=
  "young developer with short dark hair, modern home office with dual monitors, warm ambient lighting, photorealistic"

def mc_screen_ref (hasAssets : Bool) : String :=
  if hasAssets then "displaying the terminal application from the reference images"
  else "with code on screen"

/-- The hardcoded keyframe list of `main` (A -> B -> C -> D). -/
def mc_keyframes (hasAssets : Bool) : List KeyFrame :=
  [⟨"kf1_frustrated",
    mc_base_scene ++ ", sitting at desk looking frustrated, hand on forehead, monitor " ++
      mc_screen_ref hasAssets ++ ", staring at error messages", none⟩,
   ⟨"kf2_idea",
    "Same person from reference image, " ++ mc_base_scene ++
      ", sitting up straight with excited expression, finger pointing up in \x27eureka\x27 moment, eyes wide, monitor " ++
      mc_screen_ref hasAssets, none⟩,
   ⟨"kf3_typing",
    "Same person from reference image, " ++ mc_base_scene ++
      ", leaning forward typing enthusiastically on keyboard, focused happy expression, monitor " ++
      mc_screen_ref hasAssets, none⟩,
   ⟨"kf4_celebrating",
    "Same person from reference image, " ++ mc_base_scene ++
      ", standing next to desk with both arms raised in victory pose, huge smile, celebrating success, monitor " ++
      mc_screen_ref hasAssets, none⟩]

/-- The hardcoded clip list of `main` (transitions between keyframes). -/
def mc_clips : List ClipDefinition :=
  [⟨"clip1_frustration_to_idea",
    "Person sighs in frustration then suddenly has a realization, sits up with excitement. SFX: frustrated sigh, then \x22aha!\x22 moment. Ambient keyboard sounds.", 4⟩,
   ⟨"clip2_idea_to_typing",
    "Person quickly turns to keyboard and starts typing excitedly, leaning in with focus. SFX: rapid keyboard clicking, mouse clicks. Ambient office sounds.", 4⟩,
   ⟨"clip3_typing_to_celebration",
    "Person finishes typing, sees success on screen, pushes back chair and stands up with arms raised in celebration. SFX: final keyboard tap, chair rolling, \x22Yes!\x22 exclamation.", 4⟩]

/-- Python truthiness of an optional environment-variable string
(`os.environ.get` returns `None` when unset; `""` is also falsy). -/
def envTruthy : Option String → Bool
  | some s => !s.isEmpty
  | none => false

/-- The environment variables read by the scripts. -/
structure MCEnv where
  project_id : Option String
  service_account_path : Option String
  deriving DecidableEq, Repr

/-- Observable outcome of one `test_multiclip_workflow.py` run. -/
structure MCOut where
  exitCode : Nat
  keyframes : List KeyFrame
  clip_paths : List String
  final_video : Option String
  concatInvoked : Bool
  log : List String
  fs : FS

/-- `main` of `test_multiclip_workflow.py`, end to end: asset loading, client
setup (env check; `Credentials.from_service_account_file` raises on a
missing file), PHASE 1 keyframes, PHASE 2 clips, PHASE 3 concatenation.
A `sys.exit(1)` or an uncaught exception both end the process with a
non-zero code, modelled as `exitCode = 1`; normal completion — including a
partial clip set — is `exitCode = 0`.  An exhausted poll budget (the
script's infinite wait) is also folded into the error branch. -/
def multiclip_main (env : MCEnv) (fileExists : String → Bool)
    (image_client : List ContentPart → GCResponse) (ops : Nat → Operation)
    (fuel : Nat) (tool : ToolResult)
    (args_assets : List String) (args_output : String) (fs : FS) : MCOut :=
  let loaded := assets_load fs args_assets []
  let keyframes := mc_keyframes (!args_assets.isEmpty)
  if !(envTruthy env.project_id && envTruthy env.service_account_path) then
    ⟨1, keyframes, [], none, false,
      ["ERROR: Set VERTEX_AI_PROJECT_ID and VERTEX_AI_SERVICE_ACCOUNT_JSON"], fs⟩
  else if !(fileExists ((env.service_account_path).getD "")) then
    ⟨1, keyframes, [], none, false, ["FileNotFoundError: service account file"], fs⟩
  else
    match run_keyframes image_client loaded args_output keyframes none fs with
    | .error e => ⟨1, keyframes, [], none, false, [e], fs⟩
    | .ok (kfs', fs1, _recs) =>
      match run_clips kfs' ops fuel args_output mc_clips 0 fs1 with
      | .error e => ⟨1, kfs', [], none, false, [e], fs1⟩
      | .ok (clip_paths, fs2, _calls) =>
        let p3 := phase3_concat clip_paths mc_clips args_output tool fs2
        ⟨0, kfs', clip_paths, p3.final_video, p3.invoked, p3.log, p3.fs⟩

/-- The environment variables read by `generate_video.py`. -/
structure GVEnv where
  project_id : Option String
  service_account_path : Option String
  gcs_bucket : Option String
  deriving DecidableEq, Repr

/-- Observable outcome of one `generate_video.py` run: process exit code,
number of network requests issued to the generative service (the
`generate_videos` submission plus one per `operations.get`), printed
messages, final filesystem. -/
structure GVOut where
  exitCode : Nat
  networkCalls : Nat
  log : List String
  fs : FS

/-- `main` of `generate_video.py`.  `op` is the mock operation the service
returns for the single submission; `argv` is `sys.argv` (program name at
index 0).  `none` models the unbounded poll loop outrunning `fuel`. -/
def gv_main (env : GVEnv) (fileExists : String → Bool) (op : Operation)
    (fuel : Nat) (argv : List String) (fs : FS) : Option GVOut :=
  let output_file := ((argv.get? 2).getD "output_video.mp4")
  if !envTruthy env.project_id then
    some ⟨1, 0, ["ERROR: VERTEX_AI_PROJECT_ID environment variable not set"], fs⟩
  else if !envTruthy env.service_account_path then
    some ⟨1, 0, ["ERROR: VERTEX_AI_SERVICE_ACCOUNT_JSON environment variable not set"], fs⟩
  else if !fileExists ((env.service_account_path).getD "") then
    some ⟨1, 0,
      ["ERROR: Service account file not found: " ++ (env.service_account_path).getD ""], fs⟩
  else
    -- client.models.generate_videos(...) is the first network request;
    -- each client.operations.get(...) in the poll loop is one more
    match poll_loop op.statusAt fuel 0 with
    | none => none
    | some q =>
      if op.response then
        match op.generated_videos with
        | video :: _ =>
          if video.uriTruthy then
            some ⟨0, q, ["Video saved to GCS: " ++ video.uri.getD ""], fs⟩
          else if video.bytesTruthy then
            some ⟨0, q, ["Video saved to: " ++ output_file],
              fs.write output_file (.bytes (video.video_bytes.getD []))⟩
          else
            some ⟨0, q, ["Video generated but no bytes or URI found"], fs⟩
        | [] => some ⟨1, q, ["ERROR: No videos in result"], fs⟩
      else
        some ⟨1, q,
          "ERROR: Operation failed" ::
            (match op.error with | some e => ["Error: " ++ e] | none => []), fs⟩

/-- An image-generation (`generate_images` / `edit_image`) response, reduced
to `response.generated_images` image contents. -/
structure ImagesResponse where
  generated_images : List FileData
  deriving DecidableEq, Repr

/-- The output path used by both branches of `step2_generate_variation`. -/
def step2_output_path (output_dir : String) : String :=
  output_dir ++ "/step2_standing.png"

/-- `step2_generate_variation` of `test_advanced_workflow.py`.  `edit_image`
models the reference-conditioned `client.models.edit_image` call (an
`Except.error` is a raised exception), `fallback_generate` the
`generate_images` call of the `except` branch.  Returns the saved path, the
filesystem and whether the fallback was taken; `Except.error 1` models
`sys.exit(1)` (or an uncaught exception for a missing base image). -/
def step2_generate_variation (edit_image : Except String ImagesResponse)
    (fallback_generate : ImagesResponse) (base_image_path : String)
    (output_dir : String) (fs : FS) : Except Nat (String × FS × Bool) :=
  -- base_image = types.Image.from_file(location=str(base_image_path))
  match fs.read base_image_path with
  | none => .error 1
  | some _base =>
    match edit_image with
    | .ok response =>
      match response.generated_images with
      | [] => .error 1
      | img :: _ =>
        .ok (step2_output_path output_dir,
             fs.write (step2_output_path output_dir) img, false)
    | .error _e =>
      -- print(f"ERROR with subject reference: ..."); fall back to plain generation
      match fallback_generate.generated_images with
      | [] => .error 1
      | img :: _ =>
        .ok (step2_output_path output_dir,
             fs.write (step2_output_path output_dir) img, true)

/-- A completed operation that delivered its output as a remote-storage URI:
generation succeeded but the clip has no inline bytes. -/
def uriDelivering (op : Operation) : Prop :=
  op.response = true ∧
    ∃ v rest, op.generated_videos = v :: rest ∧
      v.bytesTruthy = false ∧ v.uriTruthy = true

/-- A mock operation that completes immediately but signals failure
(`operation.response` falsy, error payload present). -/
def mc_fail_op : Operation :=
  ⟨fun _ => true, false, [], some "RESOURCE_EXHAUSTED"⟩

/-- Continuity-chain predicate over the keyframe-call trace: starting from
`prev` (the path and bytes of the previously generated keyframe, if any),
each call's reference argument is the previous keyframe's saved path, its
request carries exactly that keyframe's image as continuity reference, and
the chain continues from the image this call saved. -/
def ChainFrom : Option (String × List Nat) → List KfCallRecord → Prop
  | _, [] => True
  | prev, r :: rest =>
    r.ref = prev.map Prod.fst ∧
    imagePartsOf r.sent =
      (match prev with | none => [] | some pd => [FileData.bytes pd.2]) ∧
    ChainFrom (some (r.saved_path, r.saved_data)) rest

lemma poll_loop_first_done (statusAt : Nat → Bool) :
    ∀ (k fuel start : Nat), k + 1 ≤ fuel →
      (∀ i < k, statusAt (start + i) = false) → statusAt (start + k) = true →
      poll_loop statusAt fuel start = some (start + k + 1) := by
  intro k
  induction k with
  | zero =>
    intro fuel start hfuel _ hdone
    cases fuel with
    | zero => omega
    | succ f =>
      have h : statusAt start = true := by simpa using hdone
      simp [poll_loop, h]
  | succ k ih =>
    intro fuel start hfuel hbefore hdone
    cases fuel with
    | zero => omega
    | succ f =>
      have h0 : statusAt start = false := by simpa using hbefore 0 (Nat.succ_pos k)
      have hrec := ih f (start + 1) (by omega)
        (fun i hi => by
          have := hbefore (i + 1) (by omega)
          simpa [Nat.add_assoc, Nat.add_comm 1 i] using this)
        (by
          have := hdone
          simpa [Nat.add_assoc, Nat.add_comm 1 k] using this)
      have harith : start + 1 + k + 1 = start + (k + 1) + 1 := by omega
      simp only [poll_loop, h0, Bool.false_eq_true, if_false]
      rw [hrec, harith]

/-- C4 helper: the poll loop never reports done early — if the first done
status is the k-th one, the loop stops after exactly k+1 observations. -/
lemma poll_loop_exact (statusAt : Nat → Bool) (k fuel : Nat)
    (hbefore : ∀ i < k, statusAt i = false) (hdone : statusAt k = true)
    (hfuel : k + 1 ≤ fuel) :
    poll_loop statusAt fuel 0 = some (k + 1) := by
  have := poll_loop_first_done statusAt k fuel 0 hfuel
    (fun i hi => by simpa using hbefore i hi) (by simpa using hdone)
  simpa using this

lemma FS.read_write_self (fs : FS) (p : String) (d : FileData) :
    (fs.write p d).read p = some d := by
  simp [FS.read, FS.write]

lemma FS.read_unlink_self (fs : FS) (p : String) :
    (fs.unlink p).read p = none := by
  have hf : List.find? (fun e => e.1 == p) (fs.files.filter (fun e => !(e.1 == p))) = none := by
    rw [List.find?_eq_none]
    intro x hx
    have hb := (List.mem_filter.mp hx).2
    simpa using hb
  simp [FS.read, FS.unlink, hf]

lemma imagePartsOf_append (l1 l2 : List ContentPart) :
    imagePartsOf (l1 ++ l2) = imagePartsOf l1 ++ imagePartsOf l2 := by
  simp [imagePartsOf]

lemma imagePartsOf_assets (assets : List (String × FileData)) :
    imagePartsOf (assets.map (fun a => ContentPart.asset a.1 a.2)) = [] := by
  induction assets with
  | nil => rfl
  | cons a rest ih => simp only [List.map_cons, imagePartsOf, List.filterMap_cons]; exact ih

lemma imagePartsOf_contents_pre_none (assets : List (String × FileData)) (fs : FS) :
    imagePartsOf (kf_contents_pre none assets fs) = [] := by
  unfold kf_contents_pre
  split
  · rfl
  · exact imagePartsOf_assets assets

lemma imagePartsOf_contents_pre (ref : Option String)
    (assets : List (String × FileData)) (fs : FS) :
    imagePartsOf (kf_contents_pre ref assets fs) =
      (match ref with
       | none => []
       | some p => match fs.read p with | some d => [d] | none => []) := by
  cases ref with
  | none => exact imagePartsOf_contents_pre_none assets fs
  | some p =>
    cases hr : fs.read p with
    | none =>
      simp only [kf_contents_pre, hr]
      split
      · rfl
      · exact imagePartsOf_assets assets
    | some d =>
      simp only [kf_contents_pre, hr, imagePartsOf_append]
      split
      · simp [imagePartsOf]
      · simp [imagePartsOf_assets, imagePartsOf]

lemma imagePartsOf_kf_contents (kf : KeyFrame) (ref : Option String)
    (assets : List (String × FileData)) (fs : FS) :
    imagePartsOf (kf_contents kf ref assets fs) =
      (match ref with
       | none => []
       | some p => match fs.read p with | some d => [d] | none => []) := by
  simp only [kf_contents, imagePartsOf_append, imagePartsOf_contents_pre]
  simp [imagePartsOf]

lemma kf_sent_eq (kf : KeyFrame) (ref : Option String)
    (assets : List (String × FileData)) (fs : FS) :
    kf_sent kf ref assets fs = kf_contents kf ref assets fs := by
  by_cases h : (kf_contents kf ref assets fs).length > 1
  · simp [kf_sent, h]
  · have hpre : kf_contents_pre ref assets fs = [] := by
      by_contra hne
      apply h
      have h1 : 1 ≤ (kf_contents_pre ref assets fs).length :=
        Nat.one_le_iff_ne_zero.mpr (fun h0 => hne (List.length_eq_zero.mp h0))
      simp only [kf_contents, List.length_append, List.length_singleton]
      omega
    simp [kf_sent, kf_contents, hpre, h]

lemma generate_keyframe_ok {client : List ContentPart → GCResponse}
    {kf : KeyFrame} {ref : Option String} {dir : String}
    {assets : List (String × FileData)} {fs : FS}
    {kf' : KeyFrame} {path : String} {fs' : FS} {r : KfCallRecord}
    (h : generate_keyframe client kf ref dir assets fs = .ok (kf', path, fs', r)) :
    r.ref = ref ∧ r.sent = kf_sent kf ref assets fs ∧
    r.saved_path = dir ++ "/" ++ kf.name ++ ".png" ∧ path = r.saved_path ∧
    fs' = fs.write r.saved_path (.bytes r.saved_data) ∧
    kf' = { kf with path := some r.saved_path } := by
  unfold generate_keyframe at h
  cases hf : findImagePart (client (kf_sent kf ref assets fs)).parts with
  | none => rw [hf] at h; exact absurd h (by simp)
  | some d =>
    rw [hf] at h
    simp only [Except.ok.injEq, Prod.mk.injEq] at h
    obtain ⟨h1, h2, h3, h4⟩ := h
    subst h1 h2 h3 h4
    exact ⟨rfl, rfl, rfl, rfl, rfl, rfl⟩

lemma run_keyframes_len (client : List ContentPart → GCResponse)
    (assets : List (String × FileData)) (dir : String) :
    ∀ (kfs : List KeyFrame) (ref : Option String) (fs : FS)
      (kfs' : List KeyFrame) (fs' : FS) (recs : List KfCallRecord),
      run_keyframes client assets dir kfs ref fs = .ok (kfs', fs', recs) →
      recs.length = kfs.length ∧ kfs'.length = kfs.length := by
  intro kfs
  induction kfs with
  | nil =>
    intro ref fs kfs' fs' recs h
    simp only [run_keyframes, Except.ok.injEq, Prod.mk.injEq] at h
    obtain ⟨h1, h2, h3⟩ := h
    subst h1 h3
    simp
  | cons kf rest ih =>
    intro ref fs kfs' fs' recs h
    simp only [run_keyframes] at h
    split at h
    · exact absurd h (by simp)
    · rename_i val kf1 path1 fs1 r1 hg
      split at h
      · exact absurd h (by simp)
      · rename_i val2 kfs2 fs2 recs2 hrec
        simp only [Except.ok.injEq, Prod.mk.injEq] at h
        obtain ⟨h1, h2, h3⟩ := h
        subst h1 h2 h3
        have := ih (some path1) fs1 kfs2 fs2 recs2 hrec
        simp [this.1, this.2]

lemma run_keyframes_chain (client : List ContentPart → GCResponse)
    (assets : List (String × FileData)) (dir : String) :
    ∀ (kfs : List KeyFrame) (prev : Option (String × List Nat)) (fs : FS)
      (kfs' : List KeyFrame) (fs' : FS) (recs : List KfCallRecord),
      run_keyframes client assets dir kfs (prev.map Prod.fst) fs = .ok (kfs', fs', recs) →
      (∀ p d, prev = some (p, d) → fs.read p = some (.bytes d)) →
      ChainFrom prev recs := by
  intro kfs
  induction kfs with
  | nil =>
    intro prev fs kfs' fs' recs h _
    simp only [run_keyframes, Except.ok.injEq, Prod.mk.injEq] at h
    obtain ⟨h1, h2, h3⟩ := h
    subst h3
    trivial
  | cons kf rest ih =>
    intro prev fs kfs' fs' recs h hprev
    simp only [run_keyframes] at h
    split at h
    · exact absurd h (by simp)
    · rename_i val kf1 path1 fs1 r1 hg
      split at h
      · exact absurd h (by simp)
      · rename_i val2 kfs2 fs2 recs2 hrec
        simp only [Except.ok.injEq, Prod.mk.injEq] at h
        obtain ⟨h1, h2, h3⟩ := h
        subst h1 h2 h3
        obtain ⟨g1, g2, g3, g4, g5, g6⟩ := generate_keyframe_ok hg
        refine ⟨g1, ?_, ?_⟩
        · rw [g2, kf_sent_eq, imagePartsOf_kf_contents]
          cases hp : prev with
          | none => rfl
          | some pd =>
            obtain ⟨p, dta⟩ := pd
            have := hprev p dta hp
            simp [this]
        · have hfs1 : fs1.read r1.saved_path = some (.bytes r1.saved_data) := by
            rw [g5]; exact FS.read_write_self fs r1.saved_path (.bytes r1.saved_data)
          have hrec' : run_keyframes client assets dir rest
              ((some (r1.saved_path, r1.saved_data)).map Prod.fst) fs1 =
              .ok (kfs2, fs2, recs2) := by
            simpa [g4] using hrec
          exact ih (some (r1.saved_path, r1.saved_data)) fs1 kfs2 fs2 recs2 hrec'
            (fun p dta hpd => by
              obtain ⟨hp1, hp2⟩ := Prod.ext_iff.mp (Option.some.inj hpd)
              have hp1' : r1.saved_path = p := hp1
              have hp2' : r1.saved_data = dta := hp2
              rw [← hp1', ← hp2']
              exact hfs1)

lemma chainFrom_head (r : KfCallRecord) (rest : List KfCallRecord)
    (hc : ChainFrom none (r :: rest)) :
    r.ref = none ∧ imagePartsOf r.sent = [] := by
  obtain ⟨h1, h2, _⟩ := hc
  exact ⟨h1, h2⟩

lemma chainFrom_get :
    ∀ (recs : List KfCallRecord) (prev : Option (String × List Nat)),
      ChainFrom prev recs →
      ∀ i (h : i + 1 < recs.length),
        (recs.get ⟨i + 1, h⟩).ref = some ((recs.get ⟨i, by omega⟩).saved_path) ∧
        imagePartsOf (recs.get ⟨i + 1, h⟩).sent =
          [FileData.bytes ((recs.get ⟨i, by omega⟩).saved_data)] := by
  intro recs
  induction recs with
  | nil => intro prev _ i h; simp at h
  | cons r rest ih =>
    intro prev hc i h
    obtain ⟨h1, h2, h3⟩ := hc
    cases i with
    | zero =>
      cases rest with
      | nil => simp at h
      | cons r2 rest2 =>
        obtain ⟨g1, g2, _⟩ := h3
        exact ⟨g1, g2⟩
    | succ i' =>
      have hlt : i' + 1 < rest.length := by
        simp only [List.length_cons] at h
        omega
      have := ih (some (r.saved_path, r.saved_data)) h3 i' hlt
      simpa using this

lemma generate_clip_ok {clip : ClipDefinition} {op : Operation} {fuel : Nat}
    {first_frame last_frame dir : String} {fs : FS}
    {cp : Option String} {fs' : FS} {call : ClipCallRecord} {q : Nat}
    (h : generate_clip clip op fuel first_frame last_frame dir fs = .ok (cp, fs', call, q)) :
    call.prompt = clip.prompt ∧ call.duration = clip.duration ∧
    call.first_path = first_frame ∧ call.last_path = last_frame ∧
    fs.read first_frame = some call.first_data ∧
    fs.read last_frame = some call.last_data ∧
    poll_loop op.statusAt fuel 0 = some q := by
  unfold generate_clip at h
  split at h
  · rename_i fd ld hfd hld
    split at h
    · exact absurd h (by simp)
    · rename_i q' hq
      split at h
      · split at h
        · simp only [Except.ok.injEq, Prod.mk.injEq] at h
          obtain ⟨h1, h2, h3, h4⟩ := h
          subst h1 h2 h3 h4
          exact ⟨rfl, rfl, rfl, rfl, hfd, hld, hq⟩
        · split at h
          · simp only [Except.ok.injEq, Prod.mk.injEq] at h
            obtain ⟨h1, h2, h3, h4⟩ := h
            subst h1 h2 h3 h4
            exact ⟨rfl, rfl, rfl, rfl, hfd, hld, hq⟩
          · simp only [Except.ok.injEq, Prod.mk.injEq] at h
            obtain ⟨h1, h2, h3, h4⟩ := h
            subst h1 h2 h3 h4
            exact ⟨rfl, rfl, rfl, rfl, hfd, hld, hq⟩
      · simp only [Except.ok.injEq, Prod.mk.injEq] at h
        obtain ⟨h1, h2, h3, h4⟩ := h
        subst h1 h2 h3 h4
        exact ⟨rfl, rfl, rfl, rfl, hfd, hld, hq⟩
  · exact absurd h (by simp)

lemma generate_clip_uri_none {clip : ClipDefinition} {op : Operation} {fuel : Nat}
    {first_frame last_frame dir : String} {fs : FS}
    {cp : Option String} {fs' : FS} {call : ClipCallRecord} {q : Nat}
    (h : generate_clip clip op fuel first_frame last_frame dir fs = .ok (cp, fs', call, q))
    (hop : uriDelivering op) : cp = none := by
  obtain ⟨hresp, v, vrest, hv, hb, hu⟩ := hop
  unfold generate_clip at h
  split at h
  · rename_i fd ld hfd hld
    split at h
    · exact absurd h (by simp)
    · rename_i q' hq
      rw [hresp, hv] at h
      simp only [List.isEmpty_cons, Bool.not_false, Bool.and_self, if_true,
        List.headD_cons, hb, Bool.false_eq_true, if_false, hu, if_true] at h
      simp only [Except.ok.injEq, Prod.mk.injEq] at h
      exact h.1.symm
  · exact absurd h (by simp)

lemma run_clips_paths_le (kfs : List KeyFrame) (ops : Nat → Operation) (fuel : Nat)
    (dir : String) :
    ∀ (clips : List ClipDefinition) (j : Nat) (fs : FS)
      (paths : List String) (fs' : FS) (calls : List ClipCallRecord),
      run_clips kfs ops fuel dir clips j fs = .ok (paths, fs', calls) →
      paths.length ≤ clips.length := by
  intro clips
  induction clips with
  | nil =>
    intro j fs paths fs' calls h
    simp only [run_clips, Except.ok.injEq, Prod.mk.injEq] at h
    obtain ⟨h1, h2, h3⟩ := h
    subst h1
    simp
  | cons clip rest ih =>
    intro j fs paths fs' calls h
    simp only [run_clips] at h
    split at h
    · rename_i kfi kfj hgi hgj
      split at h
      · rename_i first_frame last_frame hpi hpj
        split at h
        · exact absurd h (by simp)
        · rename_i val cp fs1 call1 q1 hgen
          split at h
          · exact absurd h (by simp)
          · rename_i val2 paths2 fs2 calls2 hrec
            simp only [Except.ok.injEq, Prod.mk.injEq] at h
            obtain ⟨h1, h2, h3⟩ := h
            subst h1 h2 h3
            have hle := ih (j + 1) fs1 paths2 fs2 calls2 hrec
            cases cp with
            | some p => simp only [List.length_cons]; omega
            | none => simp only [List.length_cons]; omega
      · exact absurd h (by simp)
    · exact absurd h (by simp)

lemma run_clips_calls (kfs : List KeyFrame) (ops : Nat → Operation) (fuel : Nat)
    (dir : String) :
    ∀ (clips : List ClipDefinition) (j : Nat) (fs : FS)
      (paths : List String) (fs' : FS) (calls : List ClipCallRecord),
      run_clips kfs ops fuel dir clips j fs = .ok (paths, fs', calls) →
      calls.length = clips.length ∧
      ∀ i (hi : i < calls.length),
        (kfs.get? (j + i)).bind KeyFrame.path = some ((calls.get ⟨i, hi⟩).first_path) ∧
        (kfs.get? (j + i + 1)).bind KeyFrame.path = some ((calls.get ⟨i, hi⟩).last_path) := by
  intro clips
  induction clips with
  | nil =>
    intro j fs paths fs' calls h
    simp only [run_clips, Except.ok.injEq, Prod.mk.injEq] at h
    obtain ⟨h1, h2, h3⟩ := h
    subst h3
    exact ⟨rfl, fun i hi => absurd hi (by simp)⟩
  | cons clip rest ih =>
    intro j fs paths fs' calls h
    simp only [run_clips] at h
    split at h
    · rename_i kfi kfj hgi hgj
      split at h
      · rename_i first_frame last_frame hpi hpj
        split at h
        · exact absurd h (by simp)
        · rename_i val cp fs1 call1 q1 hgen
          split at h
          · exact absurd h (by simp)
          · rename_i val2 paths2 fs2 calls2 hrec
            simp only [Except.ok.injEq, Prod.mk.injEq] at h
            obtain ⟨h1, h2, h3⟩ := h
            subst h1 h2 h3
            obtain ⟨ihlen, ihidx⟩ := ih (j + 1) fs1 paths2 fs2 calls2 hrec
            obtain ⟨g1, g2, g3, g4, g5, g6, g7⟩ := generate_clip_ok hgen
            refine ⟨by simp [ihlen], ?_⟩
            intro i hi
            cases i with
            | zero =>
              simp only [List.get_cons_zero, Nat.add_zero]
              constructor
              · rw [hgi]
                simp [hpi, g3]
              · rw [hgj]
                simp [hpj, g4]
            | succ i' =>
              have hi' : i' < calls2.length := by
                simp only [List.length_cons] at hi
                omega
              have := ihidx i' hi'
              have harith1 : j + 1 + i' = j + (i' + 1) := by omega
              rw [harith1] at this
              simpa using this
      · exact absurd h (by simp)
    · exact absurd h (by simp)

lemma run_clips_uri_lt (kfs : List KeyFrame) (ops : Nat → Operation) (fuel : Nat)
    (dir : String) :
    ∀ (clips : List ClipDefinition) (j : Nat) (fs : FS)
      (paths : List String) (fs' : FS) (calls : List ClipCallRecord) (i : Nat),
      run_clips kfs ops fuel dir clips j fs = .ok (paths, fs', calls) →
      i < clips.length → uriDelivering (ops (j + i)) →
      paths.length < clips.length := by
  intro clips
  induction clips with
  | nil => intro j fs paths fs' calls i _ hi; simp at hi
  | cons clip rest ih =>
    intro j fs paths fs' calls i h hi hop
    simp only [run_clips] at h
    split at h
    · rename_i kfi kfj hgi hgj
      split at h
      · rename_i first_frame last_frame hpi hpj
        split at h
        · exact absurd h (by simp)
        · rename_i val cp fs1 call1 q1 hgen
          split at h
          · exact absurd h (by simp)
          · rename_i val2 paths2 fs2 calls2 hrec
            simp only [Except.ok.injEq, Prod.mk.injEq] at h
            obtain ⟨h1, h2, h3⟩ := h
            subst h1 h2 h3
            have hle := run_clips_paths_le kfs ops fuel dir rest (j + 1) fs1
              paths2 fs2 calls2 hrec
            cases i with
            | zero =>
              have hcp : cp = none := generate_clip_uri_none hgen (by simpa using hop)
              subst hcp
              simp only [List.length_cons]
              omega
            | succ i' =>
              have hi' : i' < rest.length := by
                simp only [List.length_cons] at hi
                omega
              have hop' : uriDelivering (ops (j + 1 + i')) := by
                have harith : j + 1 + i' = j + (i' + 1) := by omega
                rw [harith]
                exact hop
              have hlt := ih (j + 1) fs1 paths2 fs2 calls2 i' hrec hi' hop'
              cases cp with
              | some p => simp only [List.length_cons]; omega
              | none => simp only [List.length_cons]; omega
      · exact absurd h (by simp)
    · exact absurd h (by simp)

end MidTerm

open MidTerm

/-- C3: for every keyframe sequence, a successful PHASE 1 run issues one
generation call per keyframe; the call for keyframe 0 carries no
prior-keyframe reference, and for every i > 0 the call for keyframe i is
issued with exactly one continuity reference image — the image generated
and saved for keyframe i-1 (its path is passed as `reference_image` and its
saved bytes are the single continuity image part of the request). -/
theorem C3_keyframe_continuity (client : List ContentPart → GCResponse)
    (assets : List (String × FileData)) (output_dir : String)
    (kfs : List KeyFrame) (fs : FS)
    (kfs' : List KeyFrame) (fs' : FS) (recs : List KfCallRecord)
    (hrun : run_keyframes client assets output_dir kfs none fs = .ok (kfs', fs', recs))
    (_hn : 1 ≤ kfs.length) :
    recs.length = kfs.length ∧
    (∀ h0 : 0 < recs.length,
       (recs.get ⟨0, h0⟩).ref = none ∧ imagePartsOf (recs.get ⟨0, h0⟩).sent = []) ∧
    (∀ i (h1 : i + 1 < recs.length),
       (recs.get ⟨i + 1, h1⟩).ref = some ((recs.get ⟨i, by omega⟩).saved_path) ∧
       imagePartsOf (recs.get ⟨i + 1, h1⟩).sent =
         [FileData.bytes ((recs.get ⟨i, by omega⟩).saved_data)]) := by
  have hlen := (run_keyframes_len client assets output_dir kfs none fs kfs' fs' recs hrun).1
  have hchain : ChainFrom none recs :=
    run_keyframes_chain client assets output_dir kfs none fs kfs' fs' recs hrun
      (fun p d hpd => by cases hpd)
  refine ⟨hlen, ?_, ?_⟩
  · intro h0
    cases recs with
    | nil => simp at h0
    | cons r rest => exact chainFrom_head r rest hchain
  · intro i h1
    exact chainFrom_get recs none hchain i h1

/-- C3 witness: a concrete two-keyframe run in which the second call carries
exactly the first keyframe's saved image as its only continuity reference. -/
theorem C3_keyframe_continuity_witness :
    run_keyframes
        (fun _ => ⟨[⟨some ⟨"image/png", [7]⟩⟩]⟩) [] "o"
        [⟨"a", "pa", none⟩, ⟨"b", "pb", none⟩] none ⟨[]⟩ =
      .ok ([⟨"a", "pa", some "o/a.png"⟩, ⟨"b", "pb", some "o/b.png"⟩],
           ⟨[("o/b.png", .bytes [7]), ("o/a.png", .bytes [7])]⟩,
           [⟨none, [.text "pa"], "o/a.png", [7]⟩,
            ⟨some "o/a.png", [.image (.bytes [7]), .text "pb"], "o/b.png", [7]⟩]) ∧
    (1 : Nat) ≤ 2 ∧
    (([⟨none, [.text "pa"], "o/a.png", [7]⟩,
       (⟨some "o/a.png", [.image (.bytes [7]), .text "pb"], "o/b.png", [7]⟩ : KfCallRecord)].get
        ⟨0 + 1, by decide⟩).ref =
       some (([⟨none, [.text "pa"], "o/a.png", [7]⟩,
               (⟨some "o/a.png", [.image (.bytes [7]), .text "pb"], "o/b.png", [7]⟩ : KfCallRecord)].get
          ⟨0, by decide⟩).saved_path)) :=
  ⟨rfl, by decide,
   ((C3_keyframe_continuity (fun _ => ⟨[⟨some ⟨"image/png", [7]⟩⟩]⟩) [] "o"
       [⟨"a", "pa", none⟩, ⟨"b", "pb", none⟩] ⟨[]⟩
       [⟨"a", "pa", some "o/a.png"⟩, ⟨"b", "pb", some "o/b.png"⟩]
       ⟨[("o/b.png", .bytes [7]), ("o/a.png", .bytes [7])]⟩
       [⟨none, [.text "pa"], "o/a.png", [7]⟩,
        ⟨some "o/a.png", [.image (.bytes [7]), .text "pb"], "o/b.png", [7]⟩]
       rfl (by decide)).2.2 0 (by decide)).1⟩

/-- C6: if the image service answers a keyframe request with a successful
response carrying no image part, the keyframe phase fails with the
empty-result error (`sys.exit(1)` after "ERROR: No image in response") and
no later keyframe of the sequence is processed, whatever the rest of the
sequence is. -/
theorem C6_empty_result_aborts (client : List ContentPart → GCResponse)
    (hclient : ∀ cs, findImagePart (client cs).parts = none)
    (assets : List (String × FileData)) (output_dir : String)
    (kf : KeyFrame) (rest : List KeyFrame) (ref : Option String) (fs : FS) :
    run_keyframes client assets output_dir (kf :: rest) ref fs =
      .error "ERROR: No image in response" := by
  simp [run_keyframes, generate_keyframe, hclient]

/-- C6 witness: a mock service returning success with zero parts makes the
four-keyframe workflow abort on the very first keyframe. -/
theorem C6_empty_result_aborts_witness :
    (∀ cs, findImagePart ((fun _ : List ContentPart => (⟨[]⟩ : GCResponse)) cs).parts = none) ∧
    run_keyframes (fun _ => ⟨[]⟩) [] "output/multiclip_demo"
        (mc_keyframes false) none ⟨[]⟩ = .error "ERROR: No image in response" :=
  ⟨fun _ => rfl,
   C6_empty_result_aborts (fun _ => ⟨[]⟩) (fun _ => rfl) [] "output/multiclip_demo"
     ((mc_keyframes false).headD ⟨"", "", none⟩) ((mc_keyframes false).tail) none ⟨[]⟩⟩

/-- C4: the poll loop for a submitted video-generation operation terminates
exactly on the status transitioning to done and never earlier: against a
service that reports not-done for the first k status queries and done on the
next one, the orchestrator performs exactly k+1 status queries (modelled with
any sufficient observation budget `fuel`). -/
theorem C4_poll_loop_queries (statusAt : Nat → Bool) (k fuel : Nat)
    (hbefore : ∀ i < k, statusAt i = false) (hdone : statusAt k = true)
    (hfuel : k + 1 ≤ fuel) :
    MidTerm.poll_loop statusAt fuel 0 = some (k + 1) :=
  MidTerm.poll_loop_exact statusAt k fuel hbefore hdone hfuel

/-- C4 witness: a mock operation that is not done for 3 polls and done on the
4th observation is polled exactly 4 times. -/
theorem C4_poll_loop_queries_witness :
    (∀ i < 3, (fun j => decide (3 ≤ j)) i = false) ∧
      (fun j => decide (3 ≤ j)) 3 = true ∧
      MidTerm.poll_loop (fun j => decide (3 ≤ j)) 10 0 = some 4 :=
  ⟨by decide, by decide,
    C4_poll_loop_queries (fun j => decide (3 ≤ j)) 3 10 (by decide) (by decide) (by decide)⟩

/-- C1: in a successful PHASE 2 run over n clip definitions derived from
n+1 keyframes, one video-generation call is issued per clip, and the call
for clip i is issued with keyframe i's saved image as its first frame and
keyframe i+1's saved image as its last frame (the call record loads
`first_data`/`last_data` from exactly those paths). -/
theorem C1_clip_frame_linkage (kfs : List KeyFrame) (ops : Nat → Operation)
    (fuel : Nat) (output_dir : String) (clips : List ClipDefinition) (fs : FS)
    (paths : List String) (fs' : FS) (calls : List ClipCallRecord)
    (hrun : run_clips kfs ops fuel output_dir clips 0 fs = .ok (paths, fs', calls))
    (_hlen : kfs.length = clips.length + 1) :
    calls.length = clips.length ∧
    ∀ i (hi : i < calls.length),
      (kfs.get? i).bind KeyFrame.path = some ((calls.get ⟨i, hi⟩).first_path) ∧
      (kfs.get? (i + 1)).bind KeyFrame.path = some ((calls.get ⟨i, hi⟩).last_path) := by
  obtain ⟨hlen, hidx⟩ := run_clips_calls kfs ops fuel output_dir clips 0 fs paths fs' calls hrun
  refine ⟨hlen, fun i hi => ?_⟩
  have := hidx i hi
  simpa using this

/-- C1 witness: a concrete one-clip run between two generated keyframes,
whose submission uses keyframe 0's image as first frame. -/
theorem C1_clip_frame_linkage_witness :
    run_clips [⟨"a", "pa", some "o/a.png"⟩, ⟨"b", "pb", some "o/b.png"⟩]
        (fun _ => ⟨fun _ => true, true, [⟨some [9], none⟩], none⟩) 1 "o"
        [⟨"c1", "pc", 4⟩] 0 ⟨[("o/a.png", .bytes [1]), ("o/b.png", .bytes [2])]⟩ =
      .ok (["o/c1.mp4"],
           ⟨[("o/c1.mp4", .bytes [9]), ("o/a.png", .bytes [1]), ("o/b.png", .bytes [2])]⟩,
           [⟨"pc", 4, "o/a.png", "o/b.png", .bytes [1], .bytes [2]⟩]) ∧
    (([⟨"a", "pa", some "o/a.png"⟩, (⟨"b", "pb", some "o/b.png"⟩ : KeyFrame)].get? 0).bind
        KeyFrame.path =
      some (([(⟨"pc", 4, "o/a.png", "o/b.png", .bytes [1], .bytes [2]⟩ : ClipCallRecord)].get
        ⟨0, by decide⟩).first_path)) :=
  ⟨rfl,
   ((C1_clip_frame_linkage [⟨"a", "pa", some "o/a.png"⟩, ⟨"b", "pb", some "o/b.png"⟩]
       (fun _ => ⟨fun _ => true, true, [⟨some [9], none⟩], none⟩) 1 "o"
       [⟨"c1", "pc", 4⟩] ⟨[("o/a.png", .bytes [1]), ("o/b.png", .bytes [2])]⟩
       ["o/c1.mp4"]
       ⟨[("o/c1.mp4", .bytes [9]), ("o/a.png", .bytes [1]), ("o/b.png", .bytes [2])]⟩
       [⟨"pc", 4, "o/a.png", "o/b.png", .bytes [1], .bytes [2]⟩]
       rfl (by decide)).2 0 (by decide)).1⟩

/-- C2: after the clip phase, PHASE 3 invokes concatenation if and only if
the number of successfully produced clip artifacts equals the number of
defined clips; when they differ the run prints the
PartialWorkflowResult-style warning, produces no final video and leaves the
filesystem untouched (no final file is written). -/
theorem C2_concat_iff_full_set (kfs : List KeyFrame) (ops : Nat → Operation)
    (fuel : Nat) (output_dir : String) (clips : List ClipDefinition) (fs : FS)
    (clip_paths : List String) (fs2 : FS) (calls : List ClipCallRecord)
    (tool : ToolResult)
    (_hrun : run_clips kfs ops fuel output_dir clips 0 fs = .ok (clip_paths, fs2, calls)) :
    ((phase3_concat clip_paths clips output_dir tool fs2).invoked = true ↔
       clip_paths.length = clips.length) ∧
    (clip_paths.length ≠ clips.length →
       (phase3_concat clip_paths clips output_dir tool fs2).final_video = none ∧
       (phase3_concat clip_paths clips output_dir tool fs2).fs = fs2 ∧
       (phase3_concat clip_paths clips output_dir tool fs2).log =
         [mc_warning clip_paths.length clips.length]) := by
  by_cases h : clip_paths.length = clips.length
  · simp [phase3_concat, h]
  · simp [phase3_concat, h]

/-- C2 witness: a run whose single clip operation failed produces zero
artifacts out of one defined clip, so concatenation is skipped with the
warning and no final file. -/
theorem C2_concat_iff_full_set_witness :
    run_clips [⟨"a", "pa", some "o/a.png"⟩, ⟨"b", "pb", some "o/b.png"⟩]
        (fun _ => mc_fail_op) 1 "o" [⟨"c1", "pc", 4⟩] 0
        ⟨[("o/a.png", .bytes [1]), ("o/b.png", .bytes [2])]⟩ =
      .ok ([], ⟨[("o/a.png", .bytes [1]), ("o/b.png", .bytes [2])]⟩,
           [⟨"pc", 4, "o/a.png", "o/b.png", .bytes [1], .bytes [2]⟩]) ∧
    ((phase3_concat [] [⟨"c1", "pc", 4⟩] "o" ⟨1, "x", []⟩
        ⟨[("o/a.png", .bytes [1]), ("o/b.png", .bytes [2])]⟩).final_video = none ∧
     (phase3_concat [] [⟨"c1", "pc", 4⟩] "o" ⟨1, "x", []⟩
        ⟨[("o/a.png", .bytes [1]), ("o/b.png", .bytes [2])]⟩).fs =
       ⟨[("o/a.png", .bytes [1]), ("o/b.png", .bytes [2])]⟩ ∧
     (phase3_concat [] [⟨"c1", "pc", 4⟩] "o" ⟨1, "x", []⟩
        ⟨[("o/a.png", .bytes [1]), ("o/b.png", .bytes [2])]⟩).log =
       [mc_warning 0 1]) :=
  ⟨rfl,
   (C2_concat_iff_full_set [⟨"a", "pa", some "o/a.png"⟩, ⟨"b", "pb", some "o/b.png"⟩]
      (fun _ => mc_fail_op) 1 "o" [⟨"c1", "pc", 4⟩]
      ⟨[("o/a.png", .bytes [1]), ("o/b.png", .bytes [2])]⟩
      [] ⟨[("o/a.png", .bytes [1]), ("o/b.png", .bytes [2])]⟩
      [⟨"pc", 4, "o/a.png", "o/b.png", .bytes [1], .bytes [2]⟩]
      ⟨1, "x", []⟩ rfl).2 (by decide)⟩

/-- C10: a clip whose completed operation delivers its output as a
remote-storage URI (no inline bytes) yields no local artifact, so the
produced artifact count falls short of the defined clip count and
concatenation is skipped — even though the operation itself succeeded
(`uriDelivering` requires `response = true`). -/
theorem C10_uri_delivery_skips_concat (kfs : List KeyFrame) (ops : Nat → Operation)
    (fuel : Nat) (output_dir : String) (clips : List ClipDefinition) (fs : FS)
    (paths : List String) (fs' : FS) (calls : List ClipCallRecord)
    (tool : ToolResult) (i : Nat)
    (hrun : run_clips kfs ops fuel output_dir clips 0 fs = .ok (paths, fs', calls))
    (hi : i < clips.length) (hop : uriDelivering (ops i)) :
    paths.length < clips.length ∧
    (phase3_concat paths clips output_dir tool fs').invoked = false ∧
    (phase3_concat paths clips output_dir tool fs').final_video = none := by
  have hlt : paths.length < clips.length :=
    run_clips_uri_lt kfs ops fuel output_dir clips 0 fs paths fs' calls i hrun hi
      (by simpa using hop)
  have hne : paths.length ≠ clips.length := Nat.ne_of_lt hlt
  exact ⟨hlt, by simp [phase3_concat, hne], by simp [phase3_concat, hne]⟩

/-- C10 witness: a one-clip run whose operation succeeds but returns a GCS
URI produces zero local artifacts and skips concatenation. -/
theorem C10_uri_delivery_skips_concat_witness :
    run_clips [⟨"a", "pa", some "o/a.png"⟩, ⟨"b", "pb", some "o/b.png"⟩]
        (fun _ => ⟨fun _ => true, true, [⟨none, some "gs://bucket/v.mp4"⟩], none⟩) 1 "o"
        [⟨"c1", "pc", 4⟩] 0 ⟨[("o/a.png", .bytes [1]), ("o/b.png", .bytes [2])]⟩ =
      .ok ([], ⟨[("o/a.png", .bytes [1]), ("o/b.png", .bytes [2])]⟩,
           [⟨"pc", 4, "o/a.png", "o/b.png", .bytes [1], .bytes [2]⟩]) ∧
    uriDelivering ⟨fun _ => true, true, [⟨none, some "gs://bucket/v.mp4"⟩], none⟩ ∧
    (([] : List String).length < 1 ∧
     (phase3_concat [] [⟨"c1", "pc", 4⟩] "o" ⟨0, "", []⟩
        ⟨[("o/a.png", .bytes [1]), ("o/b.png", .bytes [2])]⟩).invoked = false ∧
     (phase3_concat [] [⟨"c1", "pc", 4⟩] "o" ⟨0, "", []⟩
        ⟨[("o/a.png", .bytes [1]), ("o/b.png", .bytes [2])]⟩).final_video = none) :=
  ⟨rfl,
   ⟨rfl, ⟨none, some "gs://bucket/v.mp4"⟩, [], rfl, rfl, rfl⟩,
   C10_uri_delivery_skips_concat
     [⟨"a", "pa", some "o/a.png"⟩, ⟨"b", "pb", some "o/b.png"⟩]
     (fun _ => ⟨fun _ => true, true, [⟨none, some "gs://bucket/v.mp4"⟩], none⟩) 1 "o"
     [⟨"c1", "pc", 4⟩] ⟨[("o/a.png", .bytes [1]), ("o/b.png", .bytes [2])]⟩
     [] ⟨[("o/a.png", .bytes [1]), ("o/b.png", .bytes [2])]⟩
     [⟨"pc", 4, "o/a.png", "o/b.png", .bytes [1], .bytes [2]⟩]
     ⟨0, "", []⟩ 0 rfl (by decide)
     ⟨rfl, ⟨none, some "gs://bucket/v.mp4"⟩, [], rfl, rfl, rfl⟩⟩

/-- C5: if the configured credential file path does not exist on disk, the
`generate_video.py` orchestrator exits with a non-zero status having issued
zero network requests to the generative service, regardless of whether the
project id was set. -/
theorem C5_missing_credentials_no_network (env : GVEnv) (fileExists : String → Bool)
    (op : Operation) (fuel : Nat) (argv : List String) (fs : FS) (p : String)
    (hpath : env.service_account_path = some p) (hne : p ≠ "")
    (hmiss : fileExists p = false) :
    ((gv_main env fileExists op fuel argv fs).getD ⟨0, 0, [], ⟨[]⟩⟩).exitCode = 1 ∧
    ((gv_main env fileExists op fuel argv fs).getD ⟨0, 0, [], ⟨[]⟩⟩).networkCalls = 0 ∧
    (gv_main env fileExists op fuel argv fs).isSome = true := by
  have hsa : envTruthy env.service_account_path = true := by
    rw [hpath]
    simp only [envTruthy, Bool.not_eq_true']
    cases hpe : p.isEmpty
    · rfl
    · exact absurd ((String.isEmpty_iff p).mp hpe) hne
  have hfe : fileExists ((env.service_account_path).getD "") = false := by
    rw [hpath]; exact hmiss
  by_cases hproj : envTruthy env.project_id
  · simp [gv_main, hproj, hsa, hfe]
  · simp [gv_main, hproj]

/-- C5 witness: a concrete run with a set project id and a credential path
that does not exist fails with exit code 1 and zero network calls. -/
theorem C5_missing_credentials_no_network_witness :
    (⟨some "proj", some "creds.json", none⟩ : GVEnv).service_account_path =
        some "creds.json" ∧
    "creds.json" ≠ "" ∧
    (fun _ : String => false) "creds.json" = false ∧
    (((gv_main ⟨some "proj", some "creds.json", none⟩ (fun _ => false) mc_fail_op 0 [] ⟨[]⟩).getD
        ⟨0, 0, [], ⟨[]⟩⟩).exitCode = 1 ∧
     ((gv_main ⟨some "proj", some "creds.json", none⟩ (fun _ => false) mc_fail_op 0 [] ⟨[]⟩).getD
        ⟨0, 0, [], ⟨[]⟩⟩).networkCalls = 0 ∧
     (gv_main ⟨some "proj", some "creds.json", none⟩ (fun _ => false) mc_fail_op 0 [] ⟨[]⟩).isSome =
        true) :=
  ⟨rfl, by decide, rfl,
   C5_missing_credentials_no_network ⟨some "proj", some "creds.json", none⟩
     (fun _ => false) mc_fail_op 0 [] ⟨[]⟩ "creds.json" rfl (by decide) rfl⟩

/-- C7 (amended): in `generate_video.py`, an operation that completes but
signals failure makes the run print the failure together with the
service-reported error payload and exit with status 1; the poll loop's q
status observations are the only network requests. -/
theorem C7_gv_operation_failure_exits_nonzero (env : GVEnv)
    (fileExists : String → Bool) (op : Operation) (fuel : Nat)
    (argv : List String) (fs : FS) (q : Nat) (e : String)
    (h1 : envTruthy env.project_id = true)
    (h2 : envTruthy env.service_account_path = true)
    (h3 : fileExists ((env.service_account_path).getD "") = true)
    (hq : poll_loop op.statusAt fuel 0 = some q)
    (hresp : op.response = false) (herr : op.error = some e) :
    gv_main env fileExists op fuel argv fs =
      some ⟨1, q, ["ERROR: Operation failed", "Error: " ++ e], fs⟩ := by
  simp [gv_main, h1, h2, h3, hq, hresp, herr]

/-- C7 (amended) witness: a concrete failed operation (not-done once, then
done with a failure payload) exits with code 1 and the payload printed. -/
theorem C7_gv_operation_failure_exits_nonzero_witness :
    envTruthy (⟨some "p", some "sa.json", none⟩ : GVEnv).project_id = true ∧
    poll_loop (fun i => decide (1 ≤ i)) 5 0 = some 2 ∧
    gv_main ⟨some "p", some "sa.json", none⟩ (fun _ => true)
        ⟨fun i => decide (1 ≤ i), false, [], some "quota exceeded"⟩ 5 [] ⟨[]⟩ =
      some ⟨1, 2, ["ERROR: Operation failed", "Error: " ++ "quota exceeded"], ⟨[]⟩⟩ :=
  ⟨rfl, rfl,
   C7_gv_operation_failure_exits_nonzero ⟨some "p", some "sa.json", none⟩
     (fun _ => true) ⟨fun i => decide (1 ≤ i), false, [], some "quota exceeded"⟩ 5 [] ⟨[]⟩
     2 "quota exceeded" rfl rfl rfl rfl rfl rfl⟩

/-- C7 counterexample: in the multi-clip workflow, every clip operation
completing with failure (`mc_fail_op`: done immediately, `response` falsy,
error payload present) does NOT terminate the run with a non-zero exit
status — `generate_clip` returns `None`, the run warns, skips concatenation
and exits 0, refuting the claim that such a failure propagates to the top
level with a non-zero exit. -/
theorem C7_counterexample_multiclip_exits_zero :
    (multiclip_main ⟨some "proj", some "sa.json"⟩ (fun _ => true)
        (fun _ => ⟨[⟨some ⟨"image/png", [7]⟩⟩]⟩) (fun _ => mc_fail_op) 1
        ⟨0, "", []⟩ [] "output/multiclip_demo" ⟨[]⟩).exitCode = 0 ∧
    (multiclip_main ⟨some "proj", some "sa.json"⟩ (fun _ => true)
        (fun _ => ⟨[⟨some ⟨"image/png", [7]⟩⟩]⟩) (fun _ => mc_fail_op) 1
        ⟨0, "", []⟩ [] "output/multiclip_demo" ⟨[]⟩).final_video = none ∧
    mc_fail_op.response = false ∧ mc_fail_op.error = some "RESOURCE_EXHAUSTED" :=
  ⟨rfl, rfl, rfl, rfl⟩

/-- C8: when the reference-conditioned edit call raises, the step does not
abort: it falls back to the plain unconditioned generation call, and on
fallback success saves the step's artifact at the same output path the
primary branch would have used. -/
theorem C8_edit_falls_back_same_path (e : String) (fallback : ImagesResponse)
    (img : FileData) (rest : List FileData) (base_image_path output_dir : String)
    (fs : FS) (b : FileData)
    (hbase : fs.read base_image_path = some b)
    (hfall : fallback.generated_images = img :: rest) :
    step2_generate_variation (.error e) fallback base_image_path output_dir fs =
      .ok (step2_output_path output_dir,
           fs.write (step2_output_path output_dir) img, true) := by
  simp [step2_generate_variation, hbase, hfall]

/-- C8 witness: a concrete failing edit call falls back and saves the
artifact at `output/advanced_test/step2_standing.png`. -/
theorem C8_edit_falls_back_same_path_witness :
    (⟨[("base.png", FileData.bytes [3])]⟩ : FS).read "base.png" = some (.bytes [3]) ∧
    (⟨[.bytes [4]]⟩ : ImagesResponse).generated_images = [.bytes [4]] ∧
    step2_generate_variation (.error "INVALID_ARGUMENT") ⟨[.bytes [4]]⟩ "base.png"
        "output/advanced_test" ⟨[("base.png", .bytes [3])]⟩ =
      .ok (step2_output_path "output/advanced_test",
           FS.write ⟨[("base.png", .bytes [3])]⟩
             (step2_output_path "output/advanced_test") (.bytes [4]), true) :=
  ⟨rfl, rfl,
   C8_edit_falls_back_same_path "INVALID_ARGUMENT" ⟨[.bytes [4]]⟩ (.bytes [4]) []
     "base.png" "output/advanced_test" ⟨[("base.png", .bytes [3])]⟩ (.bytes [3]) rfl rfl⟩

/-- C9: the concat manifest is transient — after `concatenate_clips`, the
manifest file is gone when the tool exited 0, and when the tool exited
non-zero the manifest is still on disk with exactly the written content,
no final path is returned, and the tool's stderr is surfaced in the
printed output. -/
theorem C9_manifest_transient (clips : List String) (output_path : String)
    (tool : ToolResult) (fs : FS) :
    (tool.returncode = 0 →
       ((concatenate_clips clips output_path tool fs).2.1.read
          (dirname output_path ++ "/clips.txt")) = none) ∧
    (tool.returncode ≠ 0 →
       ((concatenate_clips clips output_path tool fs).2.1.read
          (dirname output_path ++ "/clips.txt")) = some (.text (manifest_text clips)) ∧
       (concatenate_clips clips output_path tool fs).1 = none ∧
       ("ffmpeg error: " ++ tool.stderr) ∈ (concatenate_clips clips output_path tool fs).2.2) := by
  constructor
  · intro h0
    simp [concatenate_clips, h0, FS.read_unlink_self]
  · intro hnz
    simp [concatenate_clips, hnz, FS.read_write_self]

/-- C9 witness: with exit 0 the manifest is deleted; with exit 1 the
manifest survives with the written content and "boom" is surfaced. -/
theorem C9_manifest_transient_witness :
    ((concatenate_clips ["a.mp4"] "o/final.mp4" ⟨0, "", [5]⟩ ⟨[]⟩).2.1.read
        (dirname "o/final.mp4" ++ "/clips.txt") = none) ∧
    (((concatenate_clips ["a.mp4"] "o/final.mp4" ⟨1, "boom", []⟩ ⟨[]⟩).2.1.read
        (dirname "o/final.mp4" ++ "/clips.txt") = some (.text (manifest_text ["a.mp4"]))) ∧
     (concatenate_clips ["a.mp4"] "o/final.mp4" ⟨1, "boom", []⟩ ⟨[]⟩).1 = none ∧
     ("ffmpeg error: " ++ "boom") ∈ (concatenate_clips ["a.mp4"] "o/final.mp4" ⟨1, "boom", []⟩ ⟨[]⟩).2.2) :=
  ⟨(C9_manifest_transient ["a.mp4"] "o/final.mp4" ⟨0, "", [5]⟩ ⟨[]⟩).1 rfl,
   (C9_manifest_transient ["a.mp4"] "o/final.mp4" ⟨1, "boom", []⟩ ⟨[]⟩).2 (by decide)⟩
